import Mathlib

/-!
Verification of the OAuth token lifecycle and authenticated-request pipeline
of the tiny-mcp server.

The development shallowly embeds the relevant TypeScript code:

* `src/services/oauth.ts` — token persistence (`saveTokens`, `loadTokens`,
  `clearTokens`), the expiry predicates (`isAccessTokenExpired`,
  `isRefreshTokenExpired`), `getValidAccessToken`, and the interactive-login
  callback handler of `startCallbackServer`;
* `src/services/api-client.ts` — `initializeApiClient`'s request/response
  interceptors (modelled as `runRequest`), `isAuthenticated`, and
  `handleApiError`.

Modelling choices:

* `Date.now()` is an explicit `now : Nat` parameter (epoch milliseconds);
  a single logical call is analysed at one clock reading.
* The token file is a `TokenFile`: absent, present-but-unparseable
  (`corrupt`, which `loadTokens` treats as absent), or a parsed record.
* Network exchanges are scripted by oracles: a `List RefreshOutcome` for the
  refresh-token endpoint and a `List ApiOutcome` for the ERP API transport.
  Functions report how many oracle entries they consumed, so call counts
  ("exactly one refresh", "exactly one retry") are provable.
* JavaScript truthiness matters in the source (`!tokens.access_token_expires_at`
  is true for the number 0, `!code` is true for the empty string); the
  embedding reproduces these checks exactly.
-/

/-- The persisted token record (`OAuthTokens` in `oauth.ts`): the raw fields
returned by the token endpoint plus the two computed absolute expiry instants,
which are optional because a record may predate their computation. All times
are epoch milliseconds; lifetimes (`expires_in`, `refresh_expires_in`) are
seconds. -/
structure OAuthTokens where
  access_token : String
  refresh_token : String
  token_type : String
  expires_in : Nat
  refresh_expires_in : Nat
  access_token_expires_at : Option Nat
  refresh_token_expires_at : Option Nat
deriving Repr, DecidableEq

/-- The 5-minute buffer (`bufferTime` in `isAccessTokenExpired`), in ms. -/
def bufferTime : Nat := 5 * 60 * 1000

/-- `isAccessTokenExpired` from `oauth.ts`. The source first checks JS
truthiness of `access_token_expires_at` (absent or the number 0 both count as
missing, hence expired), then compares `Date.now() >= expires_at - bufferTime`
with JS subtraction, which can go negative — hence the `Int` comparison. -/
def isAccessTokenExpired (tokens : OAuthTokens) (now : Nat) : Bool :=
  match tokens.access_token_expires_at with
  | none => true
  | some t => if t = 0 then true else decide ((t : Int) - (bufferTime : Int) ≤ (now : Int))

/-- `isRefreshTokenExpired` from `oauth.ts`: truthiness check on
`refresh_token_expires_at`, then `Date.now() >= expires_at`, with no buffer. -/
def isRefreshTokenExpired (tokens : OAuthTokens) (now : Nat) : Bool :=
  match tokens.refresh_token_expires_at with
  | none => true
  | some t => if t = 0 then true else decide (t ≤ now)

/-- The durable token store: the file `~/.tiny-mcp/tokens.json` may be absent,
present but unparseable JSON, or a parsed record. -/
inductive TokenFile
  | absent
  | corrupt
  | record (tokens : OAuthTokens)
deriving Repr, DecidableEq

/-- The expiry recomputation performed by `saveTokens`:
`access_token_expires_at = now + expires_in * 1000` and
`refresh_token_expires_at = now + refresh_expires_in * 1000`, overwriting
whatever the pair carried before. -/
def withExpiry (now : Nat) (tokens : OAuthTokens) : OAuthTokens :=
  { tokens with
    access_token_expires_at := some (now + tokens.expires_in * 1000)
    refresh_token_expires_at := some (now + tokens.refresh_expires_in * 1000) }

/-- `saveTokens` from `oauth.ts`: stamps the expiry instants at the moment of
call and writes the whole record, fully replacing any prior file content. -/
def saveTokens (now : Nat) (tokens : OAuthTokens) (_file : TokenFile) : TokenFile :=
  .record (withExpiry now tokens)

/-- `loadTokens` from `oauth.ts`: `null` when the file is missing, and `null`
(via the `catch`) when its content does not parse. -/
def loadTokens : TokenFile → Option OAuthTokens
  | .absent => none
  | .corrupt => none
  | .record tokens => some tokens

/-- `clearTokens` from `oauth.ts`: unlink the file if it exists; idempotent. -/
def clearTokens (_file : TokenFile) : TokenFile := .absent

/-- `isAuthenticated` from `api-client.ts`: `loadTokens() !== null`. -/
def isAuthenticated (file : TokenFile) : Bool := (loadTokens file).isSome

/-- The authentication failures thrown by `getValidAccessToken`, one
constructor per distinct `throw new Error(...)` site. -/
inductive AuthError
  | notAuthenticated
  | sessionExpired
  | refreshFailed
deriving Repr, DecidableEq

/-- The message string carried by each `AuthError` in the source. -/
def AuthError.message : AuthError → String
  | .notAuthenticated =>
      "Não autenticado. Execute \x27tiny-mcp-auth\x27 para fazer login OAuth."
  | .sessionExpired =>
      "Sessão expirada. Execute \x27tiny-mcp-auth\x27 para fazer login novamente."
  | .refreshFailed =>
      "Falha ao renovar token. Execute \x27tiny-mcp-auth\x27 para fazer login novamente."

/-- The spec taxonomy's `SessionExpiredError` covers both branches that clear
the store and demand re-authentication: an expired refresh token and a failed
refresh exchange. -/
def AuthError.isSessionExpiredError : AuthError → Bool
  | .notAuthenticated => false
  | .sessionExpired => true
  | .refreshFailed => true

/-- One scripted reply of the refresh-token endpoint: a fresh pair, or any
failure (non-2xx, network error). -/
inductive RefreshOutcome
  | success (fresh : OAuthTokens)
  | failure
deriving Repr, DecidableEq

deriving instance DecidableEq for Except

/-- Outcome of one `getValidAccessToken` call: the result, the token file
after the call, the unconsumed refresh-oracle entries, and how many refresh
exchanges were attempted. -/
structure AuthCallResult where
  result : Except AuthError String
  file : TokenFile
  replies : List RefreshOutcome
  calls : Nat
deriving Repr, DecidableEq

/-- `getValidAccessToken` from `oauth.ts`: load; fail `notAuthenticated` when
absent; if the refresh token is expired, clear and fail `sessionExpired`; if
the access token is (about to be) expired, run the refresh exchange — on
success `refreshAccessToken` persists the fresh pair via `saveTokens` and its
access token is returned, on failure the store is cleared and `refreshFailed`
is thrown; otherwise return the stored access token untouched. An exhausted
refresh oracle scripts a failing exchange. -/
def getValidAccessToken (now : Nat) (file : TokenFile)
    (replies : List RefreshOutcome) : AuthCallResult :=
  match loadTokens file with
  | none => ⟨.error .notAuthenticated, file, replies, 0⟩
  | some tokens =>
    if isRefreshTokenExpired tokens now then
      ⟨.error .sessionExpired, clearTokens file, replies, 0⟩
    else if isAccessTokenExpired tokens now then
      match replies with
      | .success fresh :: rest =>
          ⟨.ok fresh.access_token, saveTokens now fresh file, rest, 1⟩
      | .failure :: rest => ⟨.error .refreshFailed, clearTokens file, rest, 1⟩
      | [] => ⟨.error .refreshFailed, clearTokens file, [], 1⟩
    else
      ⟨.ok tokens.access_token, file, replies, 0⟩

/-- JS truthiness of a nullable string: `null` and `""` are falsy. -/
def strTruthy : Option String → Bool
  | none => false
  | some s => s ≠ ""

/-- The shape `handleApiError` reads from an error response body:
`data.message`, `data.error`, `data.errors` (a list of per-item messages),
plus `raw`, the body's JSON serialisation used by the `JSON.stringify`
fallback. -/
structure ErrorBody where
  message : Option String
  error : Option String
  errors : Option (List String)
  raw : String
deriving Repr, DecidableEq

/-- The `errorMsg` extraction at the top of `handleApiError`'s response
branch: `data.message`, else `data.error`, else joined `data.errors` when
non-empty, else `JSON.stringify(data)`; `"Erro desconhecido"` when the
response carried no (truthy) data. -/
def extractErrorMsg : Option ErrorBody → String
  | none => "Erro desconhecido"
  | some d =>
    if strTruthy d.message then d.message.getD ""
    else if strTruthy d.error then d.error.getD ""
    else
      match d.errors with
      | some es => if 0 < es.length then String.intercalate "; " es else d.raw
      | none => d.raw

/-- One scripted reply of the ERP API transport for a single send: a 2xx
response (axios resolves), a non-2xx response carrying a status and an
optional parsed body (axios rejects with `error.response` set), or a
transport failure carrying an error `code` and message (no response). -/
inductive ApiOutcome
  | success (status : Nat)
  | httpError (status : Nat) (body : Option ErrorBody)
  | transportError (code : String) (msg : String)
deriving Repr, DecidableEq

/-- The failures a single pipeline run can surface to the tool layer.
`retryAuthFailed` is the `new Error("Sessão expirada...")` thrown when the
token re-fetch inside the 401-retry fails; `http` is an axios error with a
response attached; `noScriptedResponse` is a modelling artifact for an
exhausted transport oracle and is unreachable in every theorem below. -/
inductive PipelineError
  | configError
  | auth (e : AuthError)
  | retryAuthFailed
  | http (status : Nat) (body : Option ErrorBody)
  | transport (code : String) (msg : String)
  | noScriptedResponse
deriving Repr, DecidableEq

/-- Which surfaced pipeline failures the spec taxonomy classifies as
`SessionExpiredError`: the store-clearing authentication failures and the
"Sessão expirada" error thrown when the 401-retry's token re-fetch fails. -/
def PipelineError.isSessionExpiredError : PipelineError → Bool
  | .auth e => e.isSessionExpiredError
  | .retryAuthFailed => true
  | _ => false

/-- The mutable state a pipeline run threads: the token file, the remaining
refresh-oracle entries, and the number of refresh exchanges performed so
far. -/
structure PipelineState where
  file : TokenFile
  replies : List RefreshOutcome
  refreshCalls : Nat
deriving Repr, DecidableEq

/-- `getValidAccessToken` acting on a `PipelineState`. -/
def getValidAccessTokenS (now : Nat) (s : PipelineState) :
    Except AuthError String × PipelineState :=
  let r := getValidAccessToken now s.file s.replies
  (r.result, ⟨r.file, r.replies, s.refreshCalls + r.calls⟩)

/-- Result of one logical request through the pipeline: the outcome (a 2xx
status, or a surfaced failure), the final state, and the bearer token
attached to each outbound send, in order. -/
structure RunResult where
  result : Except PipelineError Nat
  state : PipelineState
  sends : List String
deriving Repr, DecidableEq

/-- One logical request through `initializeApiClient`'s interceptors
(`api-client.ts`), for a fixed clock reading `now` and scripted transport
`responses`:

1. the request interceptor fails with a configuration error when no OAuth
   config is present, else awaits `getValidAccessToken` and sets the
   `Authorization` header (an auth failure aborts the request);
2. the request is sent; a 2xx resolves, any non-401 rejection is surfaced
   as-is;
3. on a first 401, the response interceptor sets `_retry`, awaits
   `getValidAccessToken` again (a failure here is caught and replaced by the
   "Sessão expirada" error), and re-issues the request through the instance —
   so the request interceptor runs again and overwrites the header with a
   third `getValidAccessToken` result; the re-issued promise is returned
   without `await`, so its own rejection bypasses the `catch`;
4. on the re-issued request, `_retry` is set, so any rejection — including a
   second 401 — is surfaced as-is. -/
def runRequest (cfgPresent : Bool) (now : Nat) (s0 : PipelineState)
    (responses : List ApiOutcome) : RunResult :=
  if cfgPresent = false then ⟨.error .configError, s0, []⟩
  else
    match getValidAccessTokenS now s0 with
    | (.error e, s1) => ⟨.error (.auth e), s1, []⟩
    | (.ok tok1, s1) =>
      match responses with
      | [] => ⟨.error .noScriptedResponse, s1, [tok1]⟩
      | r1 :: rest1 =>
        match r1 with
        | .success st => ⟨.ok st, s1, [tok1]⟩
        | .transportError c m => ⟨.error (.transport c m), s1, [tok1]⟩
        | .httpError st body =>
          if st = 401 then
            match getValidAccessTokenS now s1 with
            | (.error _, s2) => ⟨.error .retryAuthFailed, s2, [tok1]⟩
            | (.ok _, s2) =>
              match getValidAccessTokenS now s2 with
              | (.error e, s3) => ⟨.error (.auth e), s3, [tok1]⟩
              | (.ok tok3, s3) =>
                match rest1 with
                | [] => ⟨.error .noScriptedResponse, s3, [tok1, tok3]⟩
                | r2 :: _ =>
                  match r2 with
                  | .success st2 => ⟨.ok st2, s3, [tok1, tok3]⟩
                  | .httpError st2 body2 =>
                      ⟨.error (.http st2 body2), s3, [tok1, tok3]⟩
                  | .transportError c m =>
                      ⟨.error (.transport c m), s3, [tok1, tok3]⟩
          else ⟨.error (.http st body), s1, [tok1]⟩

/-- The status switch of `handleApiError`'s response branch. -/
def httpErrorMessage (status : Nat) (body : Option ErrorBody) : String :=
  if status = 400 then "❌ Requisição inválida: " ++ extractErrorMsg body
  else if status = 401 then
    "❌ Não autorizado. Execute \x27tiny-mcp-auth\x27 para autenticar."
  else if status = 403 then "❌ Acesso negado: " ++ extractErrorMsg body
  else if status = 404 then "❌ Recurso não encontrado"
  else if status = 429 then
    "❌ Limite de requisições excedido. Aguarde antes de tentar novamente."
  else if status = 500 then "❌ Erro interno do servidor Tiny"
  else if status = 503 then "❌ Serviço temporariamente indisponível"
  else "❌ Erro " ++ toString status ++ ": " ++ extractErrorMsg body

/-- `handleApiError` from `api-client.ts`, over the surfaced pipeline
failures: authentication errors render as `❌ <message>` (via the
message-prefix check for axios errors and the `instanceof Error` fallback for
plain ones), a response maps through the status switch, and transport
failures map by error code. -/
def handleApiError : PipelineError → String
  | .configError =>
      "❌ Configuração OAuth não encontrada. Defina TINY_CLIENT_ID e TINY_CLIENT_SECRET."
  | .auth e => "❌ " ++ e.message
  | .retryAuthFailed => "❌ " ++ AuthError.message .sessionExpired
  | .http status body => httpErrorMessage status body
  | .transport code msg =>
      if code = "ECONNABORTED" then
        "❌ Timeout: a requisição demorou muito para responder"
      else if code = "ENOTFOUND" ∨ code = "ECONNREFUSED" then
        "❌ Não foi possível conectar ao servidor Tiny"
      else "❌ Erro de conexão: " ++ msg
  | .noScriptedResponse => "❌ Erro desconhecido"

/-- One inbound request to the interactive-login callback server: whether the
path is `/callback`, and the `code`, `state`, `error`, `error_description`
query parameters (absent parameters are `none`). -/
structure CallbackRequest where
  pathIsCallback : Bool
  code : Option String
  state : Option String
  error : Option String
  error_description : Option String
deriving Repr, DecidableEq

/-- Terminal decision of the callback handler for one inbound request:
answer 404 and keep waiting; reject with the provider-reported error; reject
with `"Invalid authorization code or state"`; or proceed to
`exchangeCodeForTokens` with the returned code. -/
inductive CallbackDecision
  | notFound
  | providerError (msg : String)
  | invalidCodeOrState
  | exchange (code : String)
deriving Repr, DecidableEq

/-- The request handler inside `startCallbackServer` (`oauth.ts`), with the
generated `state` value as `expectedState`. JS truthiness governs the `error`
and `code` checks (an empty-string parameter is falsy), and the provider
error message is `errorDescription || error`. -/
def handleCallback (expectedState : String) (req : CallbackRequest) :
    CallbackDecision :=
  if req.pathIsCallback = false then .notFound
  else if strTruthy req.error then
    .providerError
      (if strTruthy req.error_description then req.error_description.getD ""
       else req.error.getD "")
  else if strTruthy req.code = false ∨ req.state ≠ some expectedState then
    .invalidCodeOrState
  else .exchange (req.code.getD "")

/-- Does the decision reach the token exchange endpoint? -/
def CallbackDecision.callsExchange : CallbackDecision → Bool
  | .exchange _ => true
  | _ => false

/-- Which callback decisions the spec taxonomy classifies as
`AuthExchangeError`: the provider-reported error and the invalid-code-or-state
rejection (the spec's "state mismatch" case). -/
def CallbackDecision.isAuthExchangeError : CallbackDecision → Bool
  | .providerError _ => true
  | .invalidCodeOrState => true
  | _ => false

/-- C5: `isAccessTokenExpired` is true exactly when the pair lacks an
access-token expiry instant or `now ≥ accessTokenExpiresAt - 5 min`
(a stored instant of 0 is "lacking" by JS truthiness, and is inside the
buffer anyway); in particular it is true 4 minutes before expiry and false
6 minutes before expiry. -/
theorem isAccessTokenExpired_buffer_spec :
    (∀ (tokens : OAuthTokens) (now : Nat),
      isAccessTokenExpired tokens now = true ↔
        (tokens.access_token_expires_at = none ∨
         ∃ t, tokens.access_token_expires_at = some t ∧
              (t : Int) - 5 * 60 * 1000 ≤ (now : Int))) ∧
    (∀ (tokens : OAuthTokens) (t : Nat),
      tokens.access_token_expires_at = some t → 6 * 60 * 1000 ≤ t →
        isAccessTokenExpired tokens (t - 4 * 60 * 1000) = true ∧
        isAccessTokenExpired tokens (t - 6 * 60 * 1000) = false) := by
  constructor
  · intro tokens now
    cases h : tokens.access_token_expires_at with
    | none => simp [isAccessTokenExpired, h]
    | some t =>
      by_cases ht : t = 0
      · subst ht
        simp [isAccessTokenExpired, h]
        omega
      · simp [isAccessTokenExpired, h, ht, bufferTime]
  · intro tokens t h ht
    have ht0 : t ≠ 0 := by omega
    constructor
    · simp [isAccessTokenExpired, h, ht0, bufferTime]
      omega
    · simp [isAccessTokenExpired, h, ht0, bufferTime]
      omega

/-- C5 witness: a pair expiring at t = 1000000 ms is expired at 760000
(4 min before) and not expired at 640000 (6 min before). -/
theorem isAccessTokenExpired_buffer_spec_witness :
    isAccessTokenExpired
      ⟨"A", "R", "Bearer", 14400, 86400, some 1000000, some 2000000⟩ 760000 = true ∧
    isAccessTokenExpired
      ⟨"A", "R", "Bearer", 14400, 86400, some 1000000, some 2000000⟩ 640000 = false := by
  have h := isAccessTokenExpired_buffer_spec.2
    ⟨"A", "R", "Bearer", 14400, 86400, some 1000000, some 2000000⟩ 1000000 rfl (by decide)
  simpa using h

/-- C6: `isRefreshTokenExpired` is true exactly when the pair lacks a
refresh-token expiry instant or `now ≥ refreshTokenExpiresAt`, with no
buffer: true exactly at the expiry instant, false 1 ms before it; a pair
missing the expiry metadatum is always expired (fail closed). -/
theorem isRefreshTokenExpired_exact_spec :
    (∀ (tokens : OAuthTokens) (now : Nat),
      isRefreshTokenExpired tokens now = true ↔
        (tokens.refresh_token_expires_at = none ∨
         ∃ t, tokens.refresh_token_expires_at = some t ∧ t ≤ now)) ∧
    (∀ (tokens : OAuthTokens) (t : Nat),
      tokens.refresh_token_expires_at = some t → 1 ≤ t →
        isRefreshTokenExpired tokens t = true ∧
        isRefreshTokenExpired tokens (t - 1) = false) ∧
    (∀ (tokens : OAuthTokens) (now : Nat),
      tokens.refresh_token_expires_at = none →
        isRefreshTokenExpired tokens now = true) := by
  refine ⟨?_, ?_, ?_⟩
  · intro tokens now
    cases h : tokens.refresh_token_expires_at with
    | none => simp [isRefreshTokenExpired, h]
    | some t =>
      by_cases ht : t = 0
      · subst ht
        simp [isRefreshTokenExpired, h]
      · simp [isRefreshTokenExpired, h, ht]
  · intro tokens t h ht
    have ht0 : t ≠ 0 := by omega
    constructor
    · simp [isRefreshTokenExpired, h, ht0]
    · simp [isRefreshTokenExpired, h, ht0]
      omega
  · intro tokens now h
    simp [isRefreshTokenExpired, h]

/-- C6 witness: a refresh token expiring at t = 2000000 ms is expired at
2000000 and not expired at 1999999. -/
theorem isRefreshTokenExpired_exact_spec_witness :
    isRefreshTokenExpired
      ⟨"A", "R", "Bearer", 14400, 86400, some 1000000, some 2000000⟩ 2000000 = true ∧
    isRefreshTokenExpired
      ⟨"A", "R", "Bearer", 14400, 86400, some 1000000, some 2000000⟩ 1999999 = false := by
  have h := isRefreshTokenExpired_exact_spec.2.1
    ⟨"A", "R", "Bearer", 14400, 86400, some 1000000, some 2000000⟩ 2000000 rfl (by decide)
  simpa using h

/-- C4: `save` then `load` returns the pair with both expiry instants
recomputed from the save-time clock (`now + lifetime-in-seconds * 1000`),
the credential fields unchanged, any stale expiry fields on the input
overwritten, and the prior file content fully replaced (the result does not
depend on it). -/
theorem saveTokens_loadTokens_roundtrip (now : Nat) (tokens : OAuthTokens)
    (file : TokenFile) :
    loadTokens (saveTokens now tokens file) = some (withExpiry now tokens) ∧
    (withExpiry now tokens).access_token_expires_at =
      some (now + tokens.expires_in * 1000) ∧
    (withExpiry now tokens).refresh_token_expires_at =
      some (now + tokens.refresh_expires_in * 1000) ∧
    (withExpiry now tokens).access_token = tokens.access_token ∧
    (withExpiry now tokens).refresh_token = tokens.refresh_token ∧
    (withExpiry now tokens).token_type = tokens.token_type ∧
    saveTokens now tokens file = saveTokens now tokens TokenFile.absent := by
  simp [saveTokens, loadTokens, withExpiry]

/-- C3: with a stored pair whose refresh token is expired,
`getValidAccessToken` clears the store, fails with `SessionExpiredError`,
performs no refresh exchange, and a subsequent `load` returns absent. -/
theorem getValidAccessToken_expiredRefresh_clears (now : Nat) (file : TokenFile)
    (tokens : OAuthTokens) (replies : List RefreshOutcome)
    (hload : loadTokens file = some tokens)
    (hexp : isRefreshTokenExpired tokens now = true) :
    getValidAccessToken now file replies =
      ⟨.error .sessionExpired, .absent, replies, 0⟩ ∧
    AuthError.isSessionExpiredError .sessionExpired = true ∧
    loadTokens (getValidAccessToken now file replies).file = none := by
  have h1 : getValidAccessToken now file replies =
      ⟨.error .sessionExpired, .absent, replies, 0⟩ := by
    simp [getValidAccessToken, hload, hexp, clearTokens]
  exact ⟨h1, rfl, by rw [h1]; rfl⟩

/-- C3 witness: a pair whose refresh token expired at 2000000, queried at
2000000. -/
theorem getValidAccessToken_expiredRefresh_clears_witness :
    getValidAccessToken 2000000
      (.record ⟨"A", "R", "Bearer", 14400, 86400, some 1000000, some 2000000⟩) [] =
      ⟨.error .sessionExpired, .absent, [], 0⟩ :=
  (getValidAccessToken_expiredRefresh_clears 2000000
    (.record ⟨"A", "R", "Bearer", 14400, 86400, some 1000000, some 2000000⟩)
    ⟨"A", "R", "Bearer", 14400, 86400, some 1000000, some 2000000⟩ []
    rfl (by decide)).1

/-- C9: with a stored pair whose refresh token is valid and whose access
token is outside the 5-minute buffer, `getValidAccessToken` returns the
stored access token unchanged, performs no refresh exchange, and leaves the
token file exactly as it was. -/
theorem getValidAccessToken_valid_noop (now : Nat) (file : TokenFile)
    (tokens : OAuthTokens) (replies : List RefreshOutcome)
    (hload : loadTokens file = some tokens)
    (hr : isRefreshTokenExpired tokens now = false)
    (ha : isAccessTokenExpired tokens now = false) :
    getValidAccessToken now file replies =
      ⟨.ok tokens.access_token, file, replies, 0⟩ := by
  simp [getValidAccessToken, hload, hr, ha]

/-- C9 witness: a fully valid pair at now = 0 is returned untouched. -/
theorem getValidAccessToken_valid_noop_witness :
    getValidAccessToken 0
      (.record ⟨"A", "R", "Bearer", 14400, 86400, some 1000000, some 2000000⟩) [] =
      ⟨.ok "A",
       .record ⟨"A", "R", "Bearer", 14400, 86400, some 1000000, some 2000000⟩, [], 0⟩ :=
  getValidAccessToken_valid_noop 0
    (.record ⟨"A", "R", "Bearer", 14400, 86400, some 1000000, some 2000000⟩)
    ⟨"A", "R", "Bearer", 14400, 86400, some 1000000, some 2000000⟩ []
    rfl (by decide) (by decide)

/-- C1: with a stored pair whose access token is expired (inside the buffer)
but whose refresh token is valid, `getValidAccessToken` performs exactly one
refresh exchange; on success the store is overwritten with the newly issued
pair (expiries recomputed at save time) and the new access token is
returned; on failure the store is cleared and the call fails with
`SessionExpiredError` (the `refreshFailed` error of the taxonomy), with no
further exchange attempted whatever else the oracle scripts. -/
theorem getValidAccessToken_expiredAccess_refreshOnce (now : Nat)
    (file : TokenFile) (tokens fresh : OAuthTokens)
    (rest : List RefreshOutcome)
    (hload : loadTokens file = some tokens)
    (hr : isRefreshTokenExpired tokens now = false)
    (ha : isAccessTokenExpired tokens now = true) :
    getValidAccessToken now file (.success fresh :: rest) =
      ⟨.ok fresh.access_token, .record (withExpiry now fresh), rest, 1⟩ ∧
    getValidAccessToken now file (.failure :: rest) =
      ⟨.error .refreshFailed, .absent, rest, 1⟩ ∧
    AuthError.isSessionExpiredError .refreshFailed = true := by
  simp [getValidAccessToken, hload, hr, ha, saveTokens, clearTokens,
    AuthError.isSessionExpiredError]

/-- C1 witness: at now = 500000 the stored access token (expiry 1000) is
expired while the refresh token (expiry 10000000) is valid; a scripted
successful exchange issuing the A2/R2 pair is consumed exactly once and
persisted with recomputed expiries. -/
theorem getValidAccessToken_expiredAccess_refreshOnce_witness :
    getValidAccessToken 500000
      (.record ⟨"A1", "R1", "Bearer", 14400, 86400, some 1000, some 10000000⟩)
      [.success ⟨"A2", "R2", "Bearer", 14400, 86400, none, none⟩] =
      ⟨.ok "A2",
       .record ⟨"A2", "R2", "Bearer", 14400, 86400, some 14900000, some 86900000⟩,
       [], 1⟩ := by
  have h := (getValidAccessToken_expiredAccess_refreshOnce 500000
    (.record ⟨"A1", "R1", "Bearer", 14400, 86400, some 1000, some 10000000⟩)
    ⟨"A1", "R1", "Bearer", 14400, 86400, some 1000, some 10000000⟩
    ⟨"A2", "R2", "Bearer", 14400, 86400, none, none⟩ []
    rfl (by decide) (by decide)).1
  simpa [withExpiry] using h

/-- C10: `isAuthenticated` holds exactly when `load` returns a parseable
pair, regardless of expiry: a stored pair whose access and refresh tokens
are both expired still counts as authenticated, even though
`getValidAccessToken` then fails with `SessionExpiredError`. -/
theorem isAuthenticated_ignores_expiry :
    (∀ file : TokenFile,
      isAuthenticated file = true ↔ ∃ t, loadTokens file = some t) ∧
    (∀ (file : TokenFile) (tokens : OAuthTokens) (now : Nat)
       (replies : List RefreshOutcome),
      loadTokens file = some tokens →
      isAccessTokenExpired tokens now = true →
      isRefreshTokenExpired tokens now = true →
      isAuthenticated file = true ∧
      (getValidAccessToken now file replies).result = .error .sessionExpired ∧
      AuthError.isSessionExpiredError .sessionExpired = true) := by
  constructor
  · intro file
    simp [isAuthenticated, Option.isSome_iff_exists]
  · intro file tokens now replies hload _ha hr
    refine ⟨?_, ?_, rfl⟩
    · simp [isAuthenticated, hload]
    · simp [getValidAccessToken, hload, hr]

/-- C10 witness: a pair with both tokens long expired at now = 5000 is still
"authenticated", and the next token fetch fails with `SessionExpiredError`. -/
theorem isAuthenticated_ignores_expiry_witness :
    isAuthenticated
      (.record ⟨"A", "R", "Bearer", 14400, 86400, some 1000, some 2000⟩) = true ∧
    (getValidAccessToken 5000
      (.record ⟨"A", "R", "Bearer", 14400, 86400, some 1000, some 2000⟩) []).result =
      .error .sessionExpired := by
  have h := isAuthenticated_ignores_expiry.2
    (.record ⟨"A", "R", "Bearer", 14400, 86400, some 1000, some 2000⟩)
    ⟨"A", "R", "Bearer", 14400, 86400, some 1000, some 2000⟩ 5000 []
    rfl (by decide) (by decide)
  exact ⟨h.1, h.2.1⟩

/-- C7: any inbound callback request whose returned `state` differs from the
one generated for this login attempt (including an absent `state`) is
rejected with an `AuthExchangeError`-class outcome, and the authorization-code
exchange is unreachable on that request. -/
theorem callback_state_mismatch_no_exchange (expectedState : String)
    (req : CallbackRequest)
    (hpath : req.pathIsCallback = true)
    (hstate : req.state ≠ some expectedState) :
    (handleCallback expectedState req).callsExchange = false ∧
    (handleCallback expectedState req).isAuthExchangeError = true := by
  unfold handleCallback
  by_cases herr : strTruthy req.error
  · simp [hpath, herr, CallbackDecision.callsExchange,
      CallbackDecision.isAuthExchangeError]
  · simp [hpath, herr, hstate, CallbackDecision.callsExchange,
      CallbackDecision.isAuthExchangeError]

/-- C7 witness: a callback carrying a code but the wrong state value is
rejected without reaching the exchange. -/
theorem callback_state_mismatch_no_exchange_witness :
    (handleCallback "s3cret"
      ⟨true, some "authcode", some "evil", none, none⟩).callsExchange = false ∧
    (handleCallback "s3cret"
      ⟨true, some "authcode", some "evil", none, none⟩).isAuthExchangeError = true :=
  callback_state_mismatch_no_exchange "s3cret"
    ⟨true, some "authcode", some "evil", none, none⟩ rfl (by decide)

/-- C8: a response with any status other than 401, or a transport failure,
never triggers a token refresh and is never retried: the pipeline stops after
the single send, the state is exactly the one left by the pre-send token
fetch, and the failure is surfaced as-is; `handleApiError` maps each such
failure to its taxonomy message. -/
theorem non401_no_refresh_no_retry :
    (∀ (now : Nat) (s0 s1 : PipelineState) (tok : String) (st : Nat)
       (body : Option ErrorBody) (rest : List ApiOutcome),
      getValidAccessTokenS now s0 = (.ok tok, s1) → st ≠ 401 →
      runRequest true now s0 (.httpError st body :: rest) =
        ⟨.error (.http st body), s1, [tok]⟩) ∧
    (∀ (now : Nat) (s0 s1 : PipelineState) (tok c m : String)
       (rest : List ApiOutcome),
      getValidAccessTokenS now s0 = (.ok tok, s1) →
      runRequest true now s0 (.transportError c m :: rest) =
        ⟨.error (.transport c m), s1, [tok]⟩) ∧
    (∀ body : Option ErrorBody,
      handleApiError (.http 400 body) =
        "❌ Requisição inválida: " ++ extractErrorMsg body ∧
      handleApiError (.http 403 body) =
        "❌ Acesso negado: " ++ extractErrorMsg body ∧
      handleApiError (.http 404 body) = "❌ Recurso não encontrado" ∧
      handleApiError (.http 429 body) =
        "❌ Limite de requisições excedido. Aguarde antes de tentar novamente." ∧
      handleApiError (.http 500 body) = "❌ Erro interno do servidor Tiny" ∧
      handleApiError (.http 503 body) = "❌ Serviço temporariamente indisponível") ∧
    (∀ m : String,
      handleApiError (.transport "ECONNABORTED" m) =
        "❌ Timeout: a requisição demorou muito para responder" ∧
      handleApiError (.transport "ENOTFOUND" m) =
        "❌ Não foi possível conectar ao servidor Tiny" ∧
      handleApiError (.transport "ECONNREFUSED" m) =
        "❌ Não foi possível conectar ao servidor Tiny") := by
  refine ⟨?_, ?_, ?_, ?_⟩
  · intro now s0 s1 tok st body rest h hst
    simp [runRequest, h, hst]
  · intro now s0 s1 tok c m rest h
    simp [runRequest, h]
  · intro body
    refine ⟨rfl, ?_, ?_, ?_, ?_, ?_⟩ <;> rfl
  · intro m
    refine ⟨?_, ?_, ?_⟩ <;> simp [handleApiError]

/-- C8 witness: a 500 response on a valid session is surfaced once, with the
stored token attached to the single send and the state untouched. -/
theorem non401_no_refresh_no_retry_witness :
    runRequest true 0
      ⟨.record ⟨"A", "R", "Bearer", 14400, 86400, some 1000000, some 2000000⟩, [], 0⟩
      [.httpError 500 none] =
      ⟨.error (.http 500 none),
       ⟨.record ⟨"A", "R", "Bearer", 14400, 86400, some 1000000, some 2000000⟩, [], 0⟩,
       ["A"]⟩ :=
  non401_no_refresh_no_retry.1 0
    ⟨.record ⟨"A", "R", "Bearer", 14400, 86400, some 1000000, some 2000000⟩, [], 0⟩
    ⟨.record ⟨"A", "R", "Bearer", 14400, 86400, some 1000000, some 2000000⟩, [], 0⟩
    "A" 500 none [] rfl (by decide)

/-- C2 counterexample: with a locally valid session and a transport that
answers 401 twice, the pipeline retries once and then surfaces the plain
HTTP 401 error — not a `SessionExpiredError`-class failure, and
`handleApiError` renders it as the 401 message, not the session-expired
message. -/
theorem second401_not_sessionExpired :
    (runRequest true 0
      ⟨.record ⟨"A", "R", "Bearer", 14400, 86400, some 1000000, some 2000000⟩, [], 0⟩
      [.httpError 401 none, .httpError 401 none]).result =
      .error (.http 401 none) ∧
    PipelineError.isSessionExpiredError (.http 401 none) = false ∧
    handleApiError (.http 401 none) ≠ "❌ " ++ AuthError.message .sessionExpired := by
  refine ⟨rfl, rfl, ?_⟩
  decide

/-- C2 (amended): the first 401 marks the request retried, re-fetches a
valid access token, re-issues the request once with the re-fetched token as
its `Authorization` header and returns that result; a second 401 on the
retried request is surfaced as the HTTP 401 error itself, with no further
retry whatever else the transport scripts; only a failing token re-fetch
during the retry surfaces `SessionExpiredError`. -/
theorem pipeline_retries_at_most_once :
    (∀ (now : Nat) (s0 s1 s2 s3 : PipelineState) (tok1 tok2 tok3 : String)
       (b1 : Option ErrorBody) (rest : List ApiOutcome) (st2 : Nat),
      getValidAccessTokenS now s0 = (.ok tok1, s1) →
      getValidAccessTokenS now s1 = (.ok tok2, s2) →
      getValidAccessTokenS now s2 = (.ok tok3, s3) →
      runRequest true now s0 (.httpError 401 b1 :: .success st2 :: rest) =
        ⟨.ok st2, s3, [tok1, tok3]⟩) ∧
    (∀ (now : Nat) (s0 s1 s2 s3 : PipelineState) (tok1 tok2 tok3 : String)
       (b1 b2 : Option ErrorBody) (rest : List ApiOutcome),
      getValidAccessTokenS now s0 = (.ok tok1, s1) →
      getValidAccessTokenS now s1 = (.ok tok2, s2) →
      getValidAccessTokenS now s2 = (.ok tok3, s3) →
      runRequest true now s0 (.httpError 401 b1 :: .httpError 401 b2 :: rest) =
        ⟨.error (.http 401 b2), s3, [tok1, tok3]⟩ ∧
      PipelineError.isSessionExpiredError (.http 401 b2) = false) ∧
    (∀ (now : Nat) (s0 s1 s2' : PipelineState) (tok1 : String) (e : AuthError)
       (b1 : Option ErrorBody) (rest : List ApiOutcome),
      getValidAccessTokenS now s0 = (.ok tok1, s1) →
      getValidAccessTokenS now s1 = (.error e, s2') →
      runRequest true now s0 (.httpError 401 b1 :: rest) =
        ⟨.error .retryAuthFailed, s2', [tok1]⟩ ∧
      PipelineError.isSessionExpiredError .retryAuthFailed = true) := by
  refine ⟨?_, ?_, ?_⟩
  · intro now s0 s1 s2 s3 tok1 tok2 tok3 b1 rest st2 h1 h2 h3
    simp [runRequest, h1, h2, h3]
  · intro now s0 s1 s2 s3 tok1 tok2 tok3 b1 b2 rest h1 h2 h3
    refine ⟨?_, rfl⟩
    simp [runRequest, h1, h2, h3]
  · intro now s0 s1 s2' tok1 e b1 rest h1 h2
    refine ⟨?_, rfl⟩
    simp [runRequest, h1, h2]

/-- C2 witness: on a valid session, a 401 answered twice yields exactly two
sends (one retry), both carrying the stored token, and surfaces the second
401 as the HTTP error. -/
theorem pipeline_retries_at_most_once_witness :
    runRequest true 0
      ⟨.record ⟨"A", "R", "Bearer", 14400, 86400, some 1000000, some 2000000⟩, [], 0⟩
      [.httpError 401 none, .httpError 401 none] =
      ⟨.error (.http 401 none),
       ⟨.record ⟨"A", "R", "Bearer", 14400, 86400, some 1000000, some 2000000⟩, [], 0⟩,
       ["A", "A"]⟩ :=
  (pipeline_retries_at_most_once.2.1 0
    ⟨.record ⟨"A", "R", "Bearer", 14400, 86400, some 1000000, some 2000000⟩, [], 0⟩
    ⟨.record ⟨"A", "R", "Bearer", 14400, 86400, some 1000000, some 2000000⟩, [], 0⟩
    ⟨.record ⟨"A", "R", "Bearer", 14400, 86400, some 1000000, some 2000000⟩, [], 0⟩
    ⟨.record ⟨"A", "R", "Bearer", 14400, 86400, some 1000000, some 2000000⟩, [], 0⟩
    "A" "A" "A" none none [] rfl rfl rfl).1
